import Mathlib

/-
Shallow embedding of the warbler microblogging application (app.py and its
model layer). Users, messages, follow edges and like edges are stored as
lists; routes become pure functions from a database state and an acting
identity to a result. Route functions are translated from src/app.py.
The model layer (models.py) is not part of the sources; definitions taken
from the specification are marked with a doc comment starting
"Modelled from the spec:".
-/

/-- A row of the user table (spec section 6). -/
structure User where
  id : Nat
  username : String
  email : String
  password : String
  image_url : String
  header_image_url : String
  bio : Option String
  location : Option String
  deriving Repr, DecidableEq

/-- A row of the message table: id, text, timestamp, owner id. -/
structure Message where
  id : Nat
  text : String
  timestamp : Nat
  user_id : Nat
  deriving Repr, DecidableEq

/-- A follow edge: user_being_followed_id, user_following_id. -/
structure Follow where
  followed_id : Nat
  follower_id : Nat
  deriving Repr, DecidableEq

/-- A like edge: user_id, message_id. -/
structure Like where
  user_id : Nat
  message_id : Nat
  deriving Repr, DecidableEq

/-- The stored state: the four tables. -/
structure DBState where
  users : List User
  messages : List Message
  follows : List Follow
  likes : List Like
  deriving Repr, DecidableEq

/-- The empty database. -/
def emptyDB : DBState := ⟨[], [], [], []⟩

/-- Lookup of a user by primary key: User.query.get returns the row or None. -/
def findUser (s : DBState) (uid : Nat) : Option User :=
  s.users.find? (fun u => u.id == uid)

/-- Lookup of a message by primary key: Message.query.get. -/
def findMessage (s : DBState) (mid : Nat) : Option Message :=
  s.messages.find? (fun m => m.id == mid)

/-- Decorator login_required from app.py lines 33-44: when g.user is absent
the request is redirected away with an unauthorized flash; otherwise the
wrapped handler runs with the acting user. -/
def login_required {α : Type} (g_user : Option User) (denied : α)
    (body : User → α) : α :=
  match g_user with
  | none => denied
  | some u => body u

/-- Hook add_user_to_g from app.py lines 47-55: when the session stores a
user id, g.user becomes User.query.get of it (None when the row is gone);
otherwise g.user is None. -/
def add_user_to_g (s : DBState) (sess : Option Nat) : Option User :=
  match sess with
  | some uid => findUser s uid
  | none => none

/-- Modelled from the spec: the password hash of models.py (bcrypt) is not
under src/. Section 4.2 requires a one-way hash stored in place of the
plaintext; the model prefixes a bcrypt-style marker, which keeps the hash
injective and never equal to its input. -/
def hashPw (p : String) : String := "$2b$12$" ++ p

/-- Modelled from the spec: User.authenticate of models.py is not under
src/. Section 4.2: look the user up by username; when found, verify the
password against the stored hash; return the User only on a match and
None otherwise, so an unknown username and a wrong password are not
distinguished by the return value. -/
def authenticate (s : DBState) (username password : String) : Option User :=
  match s.users.find? (fun u => u.username == username) with
  | none => none
  | some u => if u.password == hashPw password then some u else none

/-- Fresh primary key for an insert: one more than the largest id in use. -/
def nextId (ids : List Nat) : Nat := ids.foldr max 0 + 1

/-- Default profile image applied by signup when the form leaves it blank
(app.py line 99: form.image_url.data or User.image_url.default.arg). -/
def defaultImage : String := "/static/images/default-pic.png"

/-- Default header image of the user model. -/
def defaultHeader : String := "/static/images/warbler-hero.jpg"

/-- Modelled from the spec: User.signup and the uniqueness constraints of
models.py are not under src/. Section 4.2: hash the password, apply the
default image when none is given, insert the row; the commit raises
IntegrityError when the username or the email already exists. -/
def signup (s : DBState) (username email password image_url : String) :
    Except String DBState :=
  if s.users.any (fun u => u.username == username || u.email == email) then
    Except.error "IntegrityError"
  else
    Except.ok { s with users := s.users ++
      [{ id := nextId (s.users.map User.id)
         username := username
         email := email
         password := hashPw password
         image_url := if image_url == "" then defaultImage else image_url
         header_image_url := defaultHeader
         bio := none
         location := none }] }

/-- Route signup from app.py lines 79-112: on IntegrityError the form is
re-presented and nothing is committed, so the state is returned unchanged
with a failure flag; on success the new state is installed. -/
def signup_route (s : DBState) (username email password image_url : String) :
    DBState × Bool :=
  match signup s username email password image_url with
  | Except.error _ => (s, false)
  | Except.ok s2 => (s2, true)

/-- Stable insertion (descending timestamp): the new message goes after
every already placed message whose timestamp is not strictly smaller. -/
def insertByTs (m : Message) : List Message → List Message
  | [] => [m]
  | x :: xs =>
    if x.timestamp < m.timestamp then m :: x :: xs else x :: insertByTs m xs

/-- Stable sort by timestamp descending, the embedding of the query clause
order_by(Message.timestamp.desc()); ties keep table order. -/
def sortByTsDesc (l : List Message) : List Message :=
  l.foldl (fun acc m => insertByTs m acc) []

/-- Route homepage from app.py lines 352-373: an anonymous viewer gets the
anonymous page with no messages; a logged-in viewer gets the messages of
the users they follow plus their own, ordered by timestamp descending,
limited to 100. -/
def homepage (s : DBState) (g_user : Option User) : List Message :=
  match g_user with
  | none => []
  | some u =>
    let following_ids : List Nat :=
      ((s.follows.filter (fun f => f.follower_id == u.id)).map
        Follow.followed_id) ++ [u.id]
    (sortByTsDesc
      (s.messages.filter (fun m => decide (m.user_id ∈ following_ids)))).take 100

/-- Outcome of a read-only user view. -/
inductive ViewResult where
  | unauthorized
  | notFound
  | shown (u : User)
  deriving Repr, DecidableEq

/-- Route users_show from app.py lines 167-173: no login_required wrapper;
the profile page renders for any request, authenticated or not, and 404s
only when the user id does not exist. The acting identity is ignored. -/
def users_show (s : DBState) (g_user : Option User) (user_id : Nat) :
    ViewResult :=
  match g_user with
  | _ =>
    match findUser s user_id with
    | none => ViewResult.notFound
    | some u => ViewResult.shown u

/-- Route show_following from app.py lines 176-182: login_required, then
get_or_404 of the viewed user. -/
def show_following (s : DBState) (g_user : Option User) (user_id : Nat) :
    ViewResult :=
  login_required g_user ViewResult.unauthorized (fun _ =>
    match findUser s user_id with
    | none => ViewResult.notFound
    | some u => ViewResult.shown u)

/-- Route users_followers from app.py lines 185-191: login_required, then
get_or_404 of the viewed user. -/
def users_followers (s : DBState) (g_user : Option User) (user_id : Nat) :
    ViewResult :=
  login_required g_user ViewResult.unauthorized (fun _ =>
    match findUser s user_id with
    | none => ViewResult.notFound
    | some u => ViewResult.shown u)

/-- Route users_likes from app.py lines 338-344: login_required, then
get_or_404 of the viewed user. -/
def users_likes (s : DBState) (g_user : Option User) (user_id : Nat) :
    ViewResult :=
  login_required g_user ViewResult.unauthorized (fun _ =>
    match findUser s user_id with
    | none => ViewResult.notFound
    | some u => ViewResult.shown u)

/-- Outcome of the delete-message route. -/
inductive DeleteOutcome where
  | unauthorized
  | notFound
  | deleted (s : DBState)
  deriving Repr, DecidableEq

/-- State after deleting one message row. Removing the like edges that
reference the deleted message is the cascade of the model layer
(spec section 4.4); the row filter itself is db.session.delete(msg). -/
def deleteMessageState (s : DBState) (message_id : Nat) : DBState :=
  { s with
    messages := s.messages.filter (fun m => !(m.id == message_id))
    likes := s.likes.filter (fun l => !(l.message_id == message_id)) }

/-- Route messages_destroy from app.py lines 297-307: login_required, then
get_or_404 of the message, then db.session.delete and commit. The handler
performs no ownership comparison between g.user and the message owner. -/
def messages_destroy (s : DBState) (g_user : Option User) (message_id : Nat) :
    DeleteOutcome :=
  login_required g_user DeleteOutcome.unauthorized (fun _ =>
    match findMessage s message_id with
    | none => DeleteOutcome.notFound
    | some _ => DeleteOutcome.deleted (deleteMessageState s message_id))

/-- Route stop_following from app.py lines 207-217 (body under
login_required, acting user already resolved). User.query.get returns None
for a missing row and InstrumentedList.remove raises ValueError both for
None and for a user that is not in g.user.following; only a present edge
is removed and committed. -/
def stop_following (s : DBState) (g_user : User) (follow_id : Nat) :
    Except String DBState :=
  match findUser s follow_id with
  | none => Except.error "ValueError"
  | some fu =>
    if s.follows.any (fun f => f.follower_id == g_user.id && f.followed_id == fu.id) then
      let remaining :=
        s.follows.filter (fun f => !(f.follower_id == g_user.id && f.followed_id == fu.id))
      Except.ok { s with follows := remaining }
    else Except.error "ValueError"

/-- Route unlike_message from app.py lines 326-336 (body under
login_required). get_or_404 of the message, then
g.user.liked_messages.remove, which raises ValueError when no like edge
for the pair exists; only a present edge is removed and committed. -/
def unlike_message (s : DBState) (g_user : User) (message_id : Nat) :
    Except String DBState :=
  match findMessage s message_id with
  | none => Except.error "NotFound"
  | some m =>
    if s.likes.any (fun l => l.user_id == g_user.id && l.message_id == m.id) then
      let remaining :=
        s.likes.filter (fun l => !(l.user_id == g_user.id && l.message_id == m.id))
      Except.ok { s with likes := remaining }
    else Except.error "ValueError"

/-- Route add_follow from app.py lines 194-204 (body under login_required):
get_or_404 of the followed user, append to g.user.following, commit. The
duplicate-edge IntegrityError at commit is the uniqueness constraint of
models.py (spec section 4.3). -/
def add_follow (s : DBState) (g_user : User) (follow_id : Nat) :
    Except String DBState :=
  match findUser s follow_id with
  | none => Except.error "NotFound"
  | some fu =>
    if s.follows.any (fun f => f.follower_id == g_user.id && f.followed_id == fu.id) then
      Except.error "IntegrityError"
    else
      Except.ok { s with follows := s.follows ++ [⟨fu.id, g_user.id⟩] }

/-- Route like_message from app.py lines 313-323 (body under
login_required): get_or_404 of the message, append to
g.user.liked_messages, commit. The duplicate-edge IntegrityError at commit
is the uniqueness constraint of models.py (spec section 4.4). -/
def like_message (s : DBState) (g_user : User) (message_id : Nat) :
    Except String DBState :=
  match findMessage s message_id with
  | none => Except.error "NotFound"
  | some m =>
    if s.likes.any (fun l => l.user_id == g_user.id && l.message_id == m.id) then
      Except.error "IntegrityError"
    else
      Except.ok { s with likes := s.likes ++ [⟨g_user.id, m.id⟩] }

/-- Route messages_add from app.py lines 269-286 (body under
login_required): a new message with the form text is appended to
g.user.messages and committed; the timestamp default of the model is
passed explicitly. -/
def messages_add (s : DBState) (g_user : User) (text : String) (ts : Nat) :
    DBState :=
  { s with messages := s.messages ++
    [{ id := nextId (s.messages.map Message.id)
       text := text
       timestamp := ts
       user_id := g_user.id }] }

/-- Route profile from app.py lines 221-245 (body under login_required):
re-authenticate g.user with the submitted password; on success update
username, email, image fields, bio and location of that row and commit;
the password column is not written. On failure nothing changes. -/
def profile_route (s : DBState) (g_user : User)
    (password username email image_url header_image_url : String)
    (bio location : Option String) : DBState :=
  match authenticate s g_user.username password with
  | none => s
  | some u =>
    { s with users := s.users.map (fun x =>
        if x.id == u.id then
          { x with
            username := username
            email := email
            image_url := image_url
            header_image_url := header_image_url
            bio := bio
            location := location }
        else x) }

/-- Route delete_user from app.py lines 249-262 (body under
login_required): delete every message owned by g.user, delete the user
row, commit. Removing the Follow and Like edges that reference the user,
and the like edges of the deleted messages, is the cascade of the model
layer (spec section 3). -/
def delete_user (s : DBState) (g_user : User) : DBState :=
  { users := s.users.filter (fun u => !(u.id == g_user.id))
    messages := s.messages.filter (fun m => !(m.user_id == g_user.id))
    follows := s.follows.filter
      (fun f => !(f.follower_id == g_user.id) && !(f.followed_id == g_user.id))
    likes := s.likes.filter (fun l =>
      !(l.user_id == g_user.id) &&
      !(s.messages.any (fun m => m.id == l.message_id && m.user_id == g_user.id))) }

/-- One state-changing request of the application, with the session user id
that accompanies it. Requests whose handler denies, 404s or raises leave
the state unchanged (the failed transaction is rolled back). -/
inductive Op where
  | opSignup (username email password image_url : String)
  | opEditProfile (uid : Nat)
      (password username email image_url header_image_url : String)
      (bio location : Option String)
  | opPost (uid : Nat) (text : String) (ts : Nat)
  | opDeleteMsg (uid mid : Nat)
  | opFollow (uid fid : Nat)
  | opUnfollow (uid fid : Nat)
  | opLike (uid mid : Nat)
  | opUnlike (uid mid : Nat)
  | opDeleteUser (uid : Nat)
  deriving Repr, DecidableEq

/-- Resolve the acting user as add_user_to_g does and run the handler; a
missing session user or a failing handler leaves the state as it was. -/
def applyOp (s : DBState) : Op → DBState
  | Op.opSignup un em pw img => (signup_route s un em pw img).1
  | Op.opEditProfile uid pw un em img himg bio loc =>
    match findUser s uid with
    | none => s
    | some g => profile_route s g pw un em img himg bio loc
  | Op.opPost uid text ts =>
    match findUser s uid with
    | none => s
    | some g => messages_add s g text ts
  | Op.opDeleteMsg uid mid =>
    match findUser s uid with
    | none => s
    | some g =>
      match messages_destroy s (some g) mid with
      | DeleteOutcome.deleted s2 => s2
      | _ => s
  | Op.opFollow uid fid =>
    match findUser s uid with
    | none => s
    | some g =>
      match add_follow s g fid with
      | Except.ok s2 => s2
      | Except.error _ => s
  | Op.opUnfollow uid fid =>
    match findUser s uid with
    | none => s
    | some g =>
      match stop_following s g fid with
      | Except.ok s2 => s2
      | Except.error _ => s
  | Op.opLike uid mid =>
    match findUser s uid with
    | none => s
    | some g =>
      match like_message s g mid with
      | Except.ok s2 => s2
      | Except.error _ => s
  | Op.opUnlike uid mid =>
    match findUser s uid with
    | none => s
    | some g =>
      match unlike_message s g mid with
      | Except.ok s2 => s2
      | Except.error _ => s
  | Op.opDeleteUser uid =>
    match findUser s uid with
    | none => s
    | some g => delete_user s g

/-- Run a sequence of requests from the empty database. -/
def runOps (ops : List Op) : DBState := ops.foldl applyOp emptyDB

/-- Sample user for concrete checks. -/
def exU1 : User :=
  ⟨1, "alice", "alice@test.com", hashPw "pw1", defaultImage, defaultHeader, none, none⟩

/-- Second sample user. -/
def exU2 : User :=
  ⟨2, "bob", "bob@test.com", hashPw "pw2", defaultImage, defaultHeader, none, none⟩

/-- Sample message owned by the first user. -/
def exM10 : Message := ⟨10, "hello", 5, 1⟩

/-- Sample state: two users, one message of the first user, no edges. -/
def exS1 : DBState := ⟨[exU1, exU2], [exM10], [], []⟩

/-- Sample state with a follow edge (alice follows bob) and a like edge
(alice likes the message). -/
def exS2 : DBState := ⟨[exU1, exU2], [exM10, ⟨11, "yo", 7, 2⟩], [⟨2, 1⟩], [⟨1, 10⟩]⟩

/-- Sample state with two messages of the same timestamp for the tie-break
check: ids 1 and 2 in table order, both with timestamp 5. -/
def exS3 : DBState := ⟨[exU1], [⟨1, "first", 5, 1⟩, ⟨2, "second", 5, 1⟩], [], []⟩

/-- Membership in a stable insertion is membership in the parts. -/
theorem mem_insertByTs (m a : Message) (l : List Message) :
    a ∈ insertByTs m l ↔ a = m ∨ a ∈ l := by
  induction l with
  | nil => simp [insertByTs]
  | cons x xs ih =>
    simp only [insertByTs]
    split
    · simp
    · simp only [List.mem_cons, ih]
      tauto

/-- Stable insertion preserves the descending-timestamp ordering. -/
theorem pairwise_insertByTs (m : Message) (l : List Message)
    (h : l.Pairwise (fun a b => b.timestamp ≤ a.timestamp)) :
    (insertByTs m l).Pairwise (fun a b => b.timestamp ≤ a.timestamp) := by
  induction l with
  | nil => simp [insertByTs]
  | cons x xs ih =>
    rw [List.pairwise_cons] at h
    obtain ⟨hx, hxs⟩ := h
    simp only [insertByTs]
    split
    · rename_i hlt
      refine List.Pairwise.cons ?_ (List.Pairwise.cons hx hxs)
      intro b hb
      rcases List.mem_cons.mp hb with rfl | hb2
      · exact Nat.le_of_lt hlt
      · exact Nat.le_trans (hx b hb2) (Nat.le_of_lt hlt)
    · rename_i hnlt
      refine List.Pairwise.cons ?_ (ih hxs)
      intro b hb
      rcases (mem_insertByTs m b xs).mp hb with rfl | hb2
      · exact Nat.le_of_not_lt hnlt
      · exact hx b hb2

/-- Membership through the sorting fold. -/
theorem mem_foldl_insertByTs (l acc : List Message) (a : Message) :
    a ∈ l.foldl (fun acc m => insertByTs m acc) acc ↔ a ∈ acc ∨ a ∈ l := by
  induction l generalizing acc with
  | nil => simp
  | cons x xs ih =>
    simp only [List.foldl_cons]
    rw [ih, mem_insertByTs]
    simp only [List.mem_cons]
    tauto

/-- The stable sort is a permutation as far as membership is concerned. -/
theorem mem_sortByTsDesc (l : List Message) (a : Message) :
    a ∈ sortByTsDesc l ↔ a ∈ l := by
  unfold sortByTsDesc
  rw [mem_foldl_insertByTs]
  simp

/-- The sorting fold produces a descending-timestamp list. -/
theorem pairwise_foldl_insertByTs (l : List Message) (acc : List Message)
    (h : acc.Pairwise (fun a b => b.timestamp ≤ a.timestamp)) :
    (l.foldl (fun acc m => insertByTs m acc) acc).Pairwise
      (fun a b => b.timestamp ≤ a.timestamp) := by
  induction l generalizing acc with
  | nil => simpa using h
  | cons x xs ih =>
    simp only [List.foldl_cons]
    exact ih _ (pairwise_insertByTs x acc h)

/-- The stable sort is sorted by timestamp descending. -/
theorem pairwise_sortByTsDesc (l : List Message) :
    (sortByTsDesc l).Pairwise (fun a b => b.timestamp ≤ a.timestamp) :=
  pairwise_foldl_insertByTs l [] (by simp)

/-- The modelled hash never returns its input (the lengths differ). -/
theorem hashPw_ne (p : String) : hashPw p ≠ p := by
  intro h
  have hlen := congrArg String.length h
  rw [hashPw, String.length_append] at hlen
  have h7 : ("$2b$12$" : String).length = 7 := rfl
  rw [h7] at hlen
  omega

/-- The modelled hash is injective. -/
theorem hashPw_injective (p q : String) (h : hashPw p = hashPw q) : p = q := by
  have h2 := congrArg String.data h
  rw [hashPw, hashPw, String.data_append, String.data_append] at h2
  have h3 := List.append_cancel_left h2
  cases p; cases q; exact congrArg String.mk h3

/-- C1 counterexample: bob (id 2) is not the owner of message 10, which is
owned by alice (id 1); the claim says an authenticated non-owner delete is
denied with NotOwner and the message remains stored, yet the route deletes
the message. -/
theorem messages_destroy_nonowner_deletes :
    exM10.user_id ≠ exU2.id ∧
    messages_destroy exS1 (some exU2) 10 =
      DeleteOutcome.deleted ⟨[exU1, exU2], [], [], []⟩ :=
  ⟨by decide, by decide⟩

/-- C1 (amended): the delete-message route checks authentication only, not
ownership: an anonymous request is denied, while any authenticated acting
user, owner or not, deleting an existing message succeeds and the message
is removed from the store. -/
theorem messages_destroy_auth_only (s : DBState) (u : User) (mid : Nat)
    (m : Message) (hm : findMessage s mid = some m) :
    messages_destroy s none mid = DeleteOutcome.unauthorized ∧
    messages_destroy s (some u) mid =
      DeleteOutcome.deleted (deleteMessageState s mid) ∧
    ∀ x ∈ (deleteMessageState s mid).messages, x.id ≠ mid := by
  refine ⟨rfl, ?_, ?_⟩
  · simp [messages_destroy, login_required, hm]
  · intro x hx
    simp only [deleteMessageState] at hx
    have h := List.mem_filter.mp hx
    simpa using h.2

/-- C1 witness: the amended theorem applied to the two-user sample state. -/
theorem messages_destroy_auth_only_witness :
    messages_destroy exS1 none 10 = DeleteOutcome.unauthorized ∧
    messages_destroy exS1 (some exU2) 10 =
      DeleteOutcome.deleted (deleteMessageState exS1 10) := by
  have h := messages_destroy_auth_only exS1 exU2 10 exM10 (by rfl)
  exact ⟨h.1, h.2.1⟩

/-- Core membership fact about the homepage query: a message surviving
filter, sort and limit was stored and satisfied the filter. -/
theorem mem_homepage_core (P : Message → Bool) (l : List Message)
    (m : Message) (hm : m ∈ (sortByTsDesc (l.filter P)).take 100) :
    m ∈ l ∧ P m = true :=
  List.mem_filter.mp ((mem_sortByTsDesc _ _).mp (List.take_subset _ _ hm))

/-- C2: for an authenticated viewer the homepage returns at most 100
messages, each authored by the viewer or by a user the viewer follows; an
anonymous viewer gets the empty sequence. -/
theorem homepage_scope (s : DBState) (u : User) :
    (homepage s (some u)).length ≤ 100 ∧
    (∀ m ∈ homepage s (some u), m.user_id = u.id ∨
      ∃ f ∈ s.follows, f.follower_id = u.id ∧ f.followed_id = m.user_id) ∧
    homepage s none = [] := by
  refine ⟨List.length_take_le _ _, ?_, rfl⟩
  intro m hm
  have h := mem_homepage_core
    (fun m => decide (m.user_id ∈
      (((s.follows.filter (fun f => f.follower_id == u.id)).map
        Follow.followed_id) ++ [u.id])))
    s.messages m hm
  have h4 : m.user_id ∈
      (((s.follows.filter (fun f => f.follower_id == u.id)).map
        Follow.followed_id) ++ [u.id]) := of_decide_eq_true h.2
  rcases List.mem_append.mp h4 with hmap | hself
  · right
    obtain ⟨f, hf, hfeq⟩ := List.mem_map.mp hmap
    have hf2 := List.mem_filter.mp hf
    exact ⟨f, hf2.1, by simpa using hf2.2, hfeq⟩
  · left
    simpa using hself

/-- C2 witness: the message of the followed user appears on the homepage of
the follower in the sample state and is covered by the authorship bound. -/
theorem homepage_scope_witness :
    exM10.user_id = exU1.id ∨
    ∃ f ∈ exS2.follows, f.follower_id = exU1.id ∧ f.followed_id = exM10.user_id :=
  (homepage_scope exS2 exU1).2.1 exM10 (by decide)

/-- C3 counterexample: two stored messages share timestamp 5 and appear in
ascending id order on the homepage, so the claimed descending-id tie-break
does not hold. -/
theorem homepage_tie_order_counterexample :
    ¬ (homepage exS3 (some exU1)).Pairwise
      (fun a b => a.timestamp > b.timestamp ∨
        (a.timestamp = b.timestamp ∧ a.id > b.id)) := by
  decide

/-- C3 (amended): the homepage sequence is ordered by timestamp descending;
the relative order of messages with equal timestamps is the stored table
order, not a descending-id tie-break. -/
theorem homepage_sorted (s : DBState) (g_user : Option User) :
    (homepage s g_user).Pairwise (fun a b => b.timestamp ≤ a.timestamp) := by
  cases g_user with
  | none => simp [homepage]
  | some u => exact (pairwise_sortByTsDesc _).sublist (List.take_sublist _ _)

/-- C4 counterexample: in the sample state alice follows nobody and likes
nothing; her unfollow of bob and her unlike of the existing message 10
both raise ValueError instead of completing as no-ops. -/
theorem unfollow_unlike_absent_edge_raise :
    stop_following exS1 exU1 2 = Except.error "ValueError" ∧
    unlike_message exS1 exU1 10 = Except.error "ValueError" :=
  ⟨rfl, rfl⟩

/-- C4 (amended): when no Follow edge exists for the pair, unfollow raises
ValueError (also when the target user row is missing); when the message
exists but no Like edge exists for the pair, unlike raises ValueError. The
failing request commits nothing, so the stored state is unchanged, but the
operations do fail rather than completing as no-ops. -/
theorem unfollow_unlike_absent_edge_fail (s : DBState) (u : User)
    (fid mid : Nat) (m : Message)
    (hf : ∀ f ∈ s.follows, ¬(f.follower_id = u.id ∧ f.followed_id = fid))
    (hm : findMessage s mid = some m)
    (hl : ∀ l ∈ s.likes, ¬(l.user_id = u.id ∧ l.message_id = mid)) :
    stop_following s u fid = Except.error "ValueError" ∧
    unlike_message s u mid = Except.error "ValueError" := by
  constructor
  · unfold stop_following
    cases hfind : findUser s fid with
    | none => rfl
    | some fu =>
      have hfu : fu.id = fid := by simpa using List.find?_some hfind
      have hany : s.follows.any
          (fun f => f.follower_id == u.id && f.followed_id == fu.id) = false := by
        rw [List.any_eq_false]
        intro f hfmem
        have hneg := hf f hfmem
        by_contra hc
        rw [Bool.and_eq_true, beq_iff_eq, beq_iff_eq] at hc
        exact hneg ⟨hc.1, hc.2.trans hfu⟩
      simp [hany]
  · unfold unlike_message
    rw [hm]
    have hmid : m.id = mid := by simpa using List.find?_some hm
    have hany : s.likes.any
        (fun l => l.user_id == u.id && l.message_id == m.id) = false := by
      rw [List.any_eq_false]
      intro l hlmem
      have hneg := hl l hlmem
      by_contra hc
      rw [Bool.and_eq_true, beq_iff_eq, beq_iff_eq] at hc
      exact hneg ⟨hc.1, hc.2.trans hmid⟩
    simp [hany]

/-- C4 witness: bob follows nobody and has no likes in the richer sample
state; his unfollow of alice and his unlike of message 11 both fail. -/
theorem unfollow_unlike_absent_edge_fail_witness :
    stop_following exS2 exU2 1 = Except.error "ValueError" ∧
    unlike_message exS2 exU2 11 = Except.error "ValueError" :=
  unfollow_unlike_absent_edge_fail exS2 exU2 1 11 ⟨11, "yo", 7, 2⟩
    (by decide) (by rfl) (by decide)

/-- C5 counterexample: with no acting identity, the profile page of alice
renders instead of being denied, because users_show carries no
login_required wrapper. -/
theorem users_show_anonymous_not_denied :
    users_show exS1 none 1 = ViewResult.shown exU1 ∧
    users_show exS1 none 1 ≠ ViewResult.unauthorized :=
  ⟨by decide, by decide⟩

/-- C5 (amended): the follower list, following list and like list views
require authentication but not ownership: they are denied for an absent
identity and succeed for any authenticated user; the public profile view
requires no authentication at all and succeeds for every viewer. -/
theorem user_views_access (s : DBState) (uid : Nat) (t : User)
    (ht : findUser s uid = some t) :
    show_following s none uid = ViewResult.unauthorized ∧
    users_followers s none uid = ViewResult.unauthorized ∧
    users_likes s none uid = ViewResult.unauthorized ∧
    (∀ u : User, show_following s (some u) uid = ViewResult.shown t ∧
      users_followers s (some u) uid = ViewResult.shown t ∧
      users_likes s (some u) uid = ViewResult.shown t) ∧
    (∀ g : Option User, users_show s g uid = ViewResult.shown t) := by
  refine ⟨rfl, rfl, rfl, ?_, ?_⟩
  · intro u
    refine ⟨?_, ?_, ?_⟩ <;>
      simp [show_following, users_followers, users_likes, login_required, ht]
  · intro g
    cases g <;> simp [users_show, ht]

/-- C5 witness: the amended theorem applied to the sample state, with bob
viewing the lists of alice and an anonymous profile view of alice. -/
theorem user_views_access_witness :
    show_following exS1 none 1 = ViewResult.unauthorized ∧
    users_followers exS1 none 1 = ViewResult.unauthorized ∧
    users_likes exS1 none 1 = ViewResult.unauthorized ∧
    show_following exS1 (some exU2) 1 = ViewResult.shown exU1 ∧
    users_followers exS1 (some exU2) 1 = ViewResult.shown exU1 ∧
    users_likes exS1 (some exU2) 1 = ViewResult.shown exU1 ∧
    users_show exS1 none 1 = ViewResult.shown exU1 := by
  have h := user_views_access exS1 1 exU1 (by rfl)
  exact ⟨h.1, h.2.1, h.2.2.1, (h.2.2.2.1 exU2).1, (h.2.2.2.1 exU2).2.1,
    (h.2.2.2.1 exU2).2.2, h.2.2.2.2 none⟩

/-- C6: authenticate returns the stored user for the matching password and
the single absent value None both for a wrong password and for an unknown
username, so the two failure causes are indistinguishable from the
return value. -/
theorem authenticate_behavior (s : DBState) (un pw : String) (u : User)
    (hu : s.users.find? (fun x => x.username == un) = some u)
    (hp : u.password = hashPw pw) :
    authenticate s un pw = some u ∧
    (∀ w, w ≠ pw → authenticate s un w = none) ∧
    (∀ un2 w, s.users.find? (fun x => x.username == un2) = none →
      authenticate s un2 w = none) ∧
    (∀ w un2 w2, w ≠ pw →
      s.users.find? (fun x => x.username == un2) = none →
      authenticate s un w = authenticate s un2 w2) := by
  have hwrong : ∀ w, w ≠ pw → authenticate s un w = none := by
    intro w hw
    unfold authenticate
    rw [hu]
    have hne : u.password ≠ hashPw w := by
      rw [hp]
      intro hcontr
      exact hw (hashPw_injective w pw hcontr.symm)
    simp [hne]
  have hunknown : ∀ un2 w, s.users.find? (fun x => x.username == un2) = none →
      authenticate s un2 w = none := by
    intro un2 w h2
    unfold authenticate
    rw [h2]
  refine ⟨?_, hwrong, hunknown, ?_⟩
  · unfold authenticate
    rw [hu]
    simp [hp]
  · intro w un2 w2 hw h2
    rw [hwrong w hw, hunknown un2 w2 h2]

/-- C6 witness: the behavior of authenticate on the sample state, with the
correct password, a wrong password and an unknown username. -/
theorem authenticate_behavior_witness :
    authenticate exS1 "alice" "pw1" = some exU1 ∧
    authenticate exS1 "alice" "bad" = none ∧
    authenticate exS1 "nobody" "whatever" = none ∧
    authenticate exS1 "alice" "bad" = authenticate exS1 "nobody" "whatever" := by
  have h := authenticate_behavior exS1 "alice" "pw1" exU1 (by rfl) (by rfl)
  exact ⟨h.1, h.2.1 "bad" (by decide), h.2.2.1 "nobody" "whatever" (by rfl),
    h.2.2.2 "bad" "nobody" "whatever" (by decide) (by rfl)⟩

/-- C7: a signup whose username or email is already stored fails with the
IntegrityError of the uniqueness constraint and the route leaves the
stored users unchanged, so no second row appears. -/
theorem signup_duplicate_no_change (s : DBState) (un em pw img : String)
    (hdup : ∃ u ∈ s.users, u.username = un ∨ u.email = em) :
    signup_route s un em pw img = (s, false) := by
  obtain ⟨u, hu, hc⟩ := hdup
  have hany : s.users.any (fun x => x.username == un || x.email == em) = true := by
    rw [List.any_eq_true]
    refine ⟨u, hu, ?_⟩
    rcases hc with h | h <;> simp [h]
  unfold signup_route signup
  simp [hany]

/-- C7 witness: signing up with the already-stored username alice changes
nothing and reports failure. -/
theorem signup_duplicate_no_change_witness :
    signup_route exS1 "alice" "fresh@test.com" "p" "" = (exS1, false) :=
  signup_duplicate_no_change exS1 "alice" "fresh@test.com" "p" ""
    ⟨exU1, by decide, Or.inl rfl⟩

/-- C8: after deleting a user, no stored user row, message, Follow edge or
Like edge references the deleted user id; messages and both edge kinds
referencing the user are removed together with the row in the one
resulting state. -/
theorem delete_user_cascades (s : DBState) (u : User) :
    (∀ x ∈ (delete_user s u).users, x.id ≠ u.id) ∧
    (∀ m ∈ (delete_user s u).messages, m.user_id ≠ u.id) ∧
    (∀ f ∈ (delete_user s u).follows,
      f.follower_id ≠ u.id ∧ f.followed_id ≠ u.id) ∧
    (∀ l ∈ (delete_user s u).likes, l.user_id ≠ u.id) := by
  refine ⟨?_, ?_, ?_, ?_⟩
  · intro x hx
    have h := (List.mem_filter.mp hx).2
    simpa using h
  · intro m hm
    have h := (List.mem_filter.mp hm).2
    simpa using h
  · intro f hf
    have h := (List.mem_filter.mp hf).2
    rw [Bool.and_eq_true] at h
    constructor
    · simpa using h.1
    · simpa using h.2
  · intro l hl
    have h := (List.mem_filter.mp hl).2
    rw [Bool.and_eq_true] at h
    simpa using h.1

/-- C8 witness: deleting bob from the richer sample state leaves only rows
that do not reference his id. -/
theorem delete_user_cascades_witness :
    exU1.id ≠ exU2.id ∧ exM10.user_id ≠ exU2.id ∧
    (⟨1, 10⟩ : Like).user_id ≠ exU2.id := by
  have h := delete_user_cascades exS2 exU2
  exact ⟨h.1 exU1 (by decide), h.2.1 exM10 (by decide),
    h.2.2.2 ⟨1, 10⟩ (by decide)⟩

/-- A successful stop_following changes only the follow table. -/
theorem stop_following_users (s : DBState) (g : User) (fid : Nat)
    (s2 : DBState) (h : stop_following s g fid = Except.ok s2) :
    s2.users = s.users := by
  unfold stop_following at h
  cases hfind : findUser s fid with
  | none => rw [hfind] at h; exact absurd h (by simp)
  | some fu =>
    rw [hfind] at h
    try simp only [] at h
    cases hc : s.follows.any
        (fun f => f.follower_id == g.id && f.followed_id == fu.id) with
    | false => rw [hc] at h; simp at h
    | true =>
      rw [hc] at h
      simp only [if_pos, Except.ok.injEq] at h
      subst h
      rfl

/-- A successful unlike_message changes only the like table. -/
theorem unlike_message_users (s : DBState) (g : User) (mid : Nat)
    (s2 : DBState) (h : unlike_message s g mid = Except.ok s2) :
    s2.users = s.users := by
  unfold unlike_message at h
  cases hfind : findMessage s mid with
  | none => rw [hfind] at h; exact absurd h (by simp)
  | some m =>
    rw [hfind] at h
    try simp only [] at h
    cases hc : s.likes.any
        (fun l => l.user_id == g.id && l.message_id == m.id) with
    | false => rw [hc] at h; simp at h
    | true =>
      rw [hc] at h
      simp only [if_pos, Except.ok.injEq] at h
      subst h
      rfl

/-- A successful add_follow changes only the follow table. -/
theorem add_follow_users (s : DBState) (g : User) (fid : Nat)
    (s2 : DBState) (h : add_follow s g fid = Except.ok s2) :
    s2.users = s.users := by
  unfold add_follow at h
  cases hfind : findUser s fid with
  | none => rw [hfind] at h; exact absurd h (by simp)
  | some fu =>
    rw [hfind] at h
    try simp only [] at h
    cases hc : s.follows.any
        (fun f => f.follower_id == g.id && f.followed_id == fu.id) with
    | true => rw [hc] at h; simp at h
    | false =>
      rw [hc] at h
      simp at h
      subst h
      rfl

/-- A successful like_message changes only the like table. -/
theorem like_message_users (s : DBState) (g : User) (mid : Nat)
    (s2 : DBState) (h : like_message s g mid = Except.ok s2) :
    s2.users = s.users := by
  unfold like_message at h
  cases hfind : findMessage s mid with
  | none => rw [hfind] at h; exact absurd h (by simp)
  | some m =>
    rw [hfind] at h
    try simp only [] at h
    cases hc : s.likes.any
        (fun l => l.user_id == g.id && l.message_id == m.id) with
    | true => rw [hc] at h; simp at h
    | false =>
      rw [hc] at h
      simp at h
      subst h
      rfl

/-- A delete that went through keeps the user table unchanged. -/
theorem messages_destroy_users (s : DBState) (g : Option User) (mid : Nat)
    (s2 : DBState) (h : messages_destroy s g mid = DeleteOutcome.deleted s2) :
    s2.users = s.users := by
  unfold messages_destroy login_required at h
  cases g with
  | none => exact absurd h (by simp)
  | some gu =>
    simp only at h
    cases hfind : findMessage s mid with
    | none => rw [hfind] at h; exact absurd h (by simp)
    | some m => rw [hfind] at h; cases h; rfl

/-- Case analysis helper: the handlers that return an Except keep the user
table unchanged on success and fall back to the old state on error. -/
theorem mem_users_exceptCase (s : DBState) (r : Except String DBState)
    (u : User) (hall : ∀ s2, r = Except.ok s2 → s2.users = s.users)
    (hu : u ∈ (match r with
      | Except.ok s2 => s2
      | Except.error _ => s).users) :
    u ∈ s.users := by
  cases r with
  | ok s2 => rw [hall s2 rfl] at hu; exact hu
  | error e => exact hu

/-- Case analysis helper: the delete-message handler keeps the user table
unchanged when it deletes and falls back to the old state otherwise. -/
theorem mem_users_deleteCase (s : DBState) (r : DeleteOutcome) (u : User)
    (hall : ∀ s2, r = DeleteOutcome.deleted s2 → s2.users = s.users)
    (hu : u ∈ (match r with
      | DeleteOutcome.deleted s2 => s2
      | _ => s).users) :
    u ∈ s.users := by
  cases r with
  | deleted s2 => rw [hall s2 rfl] at hu; exact hu
  | unauthorized => exact hu
  | notFound => exact hu

/-- A profile edit rewrites rows of the user table without touching the
stored password of any row. -/
theorem profile_route_password (s : DBState) (g : User)
    (pw un em img himg : String) (bio loc : Option String) (u : User)
    (hu : u ∈ (profile_route s g pw un em img himg bio loc).users) :
    ∃ y ∈ s.users, u.password = y.password := by
  unfold profile_route at hu
  cases hauth : authenticate s g.username pw with
  | none => rw [hauth] at hu; exact ⟨u, hu, rfl⟩
  | some u2 =>
    rw [hauth] at hu
    simp only [List.mem_map] at hu
    obtain ⟨y, hy, hyeq⟩ := hu
    refine ⟨y, hy, ?_⟩
    rw [← hyeq]
    split <;> rfl

/-- Every user row present after one request either keeps the password of
a row that was already stored or carries the hash of the signup input. -/
theorem password_of_applyOp (s : DBState) (op : Op) (u : User)
    (hu : u ∈ (applyOp s op).users) :
    (∃ y ∈ s.users, u.password = y.password) ∨ ∃ p, u.password = hashPw p := by
  cases op with
  | opSignup un em pw img =>
    simp only [applyOp, signup_route, signup] at hu
    cases hc : s.users.any (fun x => x.username == un || x.email == em) with
    | true =>
      rw [hc] at hu
      simp at hu
      exact Or.inl ⟨u, hu, rfl⟩
    | false =>
      rw [hc] at hu
      simp at hu
      rcases hu with h | h
      · exact Or.inl ⟨u, h, rfl⟩
      · subst h
        exact Or.inr ⟨pw, rfl⟩
  | opEditProfile uid pw un em img himg bio loc =>
    simp only [applyOp] at hu
    cases hfind : findUser s uid with
    | none => rw [hfind] at hu; exact Or.inl ⟨u, hu, rfl⟩
    | some g =>
      rw [hfind] at hu
      exact Or.inl (profile_route_password s g pw un em img himg bio loc u hu)
  | opPost uid text ts =>
    simp only [applyOp] at hu
    cases hfind : findUser s uid with
    | none => rw [hfind] at hu; exact Or.inl ⟨u, hu, rfl⟩
    | some g => rw [hfind] at hu; exact Or.inl ⟨u, hu, rfl⟩
  | opDeleteMsg uid mid =>
    simp only [applyOp] at hu
    cases hfind : findUser s uid with
    | none => rw [hfind] at hu; exact Or.inl ⟨u, hu, rfl⟩
    | some g =>
      rw [hfind] at hu
      exact Or.inl ⟨u, mem_users_deleteCase s (messages_destroy s (some g) mid)
        u (fun s2 h2 => messages_destroy_users s (some g) mid s2 h2) hu, rfl⟩
  | opFollow uid fid =>
    simp only [applyOp] at hu
    cases hfind : findUser s uid with
    | none => rw [hfind] at hu; exact Or.inl ⟨u, hu, rfl⟩
    | some g =>
      rw [hfind] at hu
      exact Or.inl ⟨u, mem_users_exceptCase s (add_follow s g fid)
        u (fun s2 h2 => add_follow_users s g fid s2 h2) hu, rfl⟩
  | opUnfollow uid fid =>
    simp only [applyOp] at hu
    cases hfind : findUser s uid with
    | none => rw [hfind] at hu; exact Or.inl ⟨u, hu, rfl⟩
    | some g =>
      rw [hfind] at hu
      exact Or.inl ⟨u, mem_users_exceptCase s (stop_following s g fid)
        u (fun s2 h2 => stop_following_users s g fid s2 h2) hu, rfl⟩
  | opLike uid mid =>
    simp only [applyOp] at hu
    cases hfind : findUser s uid with
    | none => rw [hfind] at hu; exact Or.inl ⟨u, hu, rfl⟩
    | some g =>
      rw [hfind] at hu
      exact Or.inl ⟨u, mem_users_exceptCase s (like_message s g mid)
        u (fun s2 h2 => like_message_users s g mid s2 h2) hu, rfl⟩
  | opUnlike uid mid =>
    simp only [applyOp] at hu
    cases hfind : findUser s uid with
    | none => rw [hfind] at hu; exact Or.inl ⟨u, hu, rfl⟩
    | some g =>
      rw [hfind] at hu
      exact Or.inl ⟨u, mem_users_exceptCase s (unlike_message s g mid)
        u (fun s2 h2 => unlike_message_users s g mid s2 h2) hu, rfl⟩
  | opDeleteUser uid =>
    simp only [applyOp] at hu
    cases hfind : findUser s uid with
    | none => rw [hfind] at hu; exact Or.inl ⟨u, hu, rfl⟩
    | some g =>
      rw [hfind] at hu
      have hu2 : u ∈ s.users.filter (fun x => !(x.id == g.id)) := hu
      exact Or.inl ⟨u, (List.mem_filter.mp hu2).1, rfl⟩

/-- Invariant: every stored password is a hash. -/
def PwInv (s : DBState) : Prop := ∀ u ∈ s.users, ∃ p, u.password = hashPw p

/-- One request preserves the hashed-password invariant. -/
theorem pwInv_applyOp (s : DBState) (op : Op) (h : PwInv s) :
    PwInv (applyOp s op) := by
  intro u hu
  rcases password_of_applyOp s op u hu with ⟨y, hy, he⟩ | hp
  · obtain ⟨p, hp⟩ := h y hy
    exact ⟨p, he.trans hp⟩
  · exact hp

/-- A request sequence preserves the hashed-password invariant. -/
theorem pwInv_foldl (l : List Op) (s : DBState) (h : PwInv s) :
    PwInv (l.foldl applyOp s) := by
  induction l generalizing s with
  | nil => simpa using h
  | cons x xs ih =>
    simp only [List.foldl_cons]
    exact ih _ (pwInv_applyOp s x h)

/-- C9: in every state reachable from the empty database by requests, every
stored password is the one-way hash of the plaintext that produced it and
never equals that plaintext. -/
theorem passwords_never_plaintext (ops : List Op) (u : User)
    (hu : u ∈ (runOps ops).users) :
    ∃ p, u.password = hashPw p ∧ u.password ≠ p := by
  have hinv : PwInv (runOps ops) := by
    unfold runOps
    refine pwInv_foldl ops emptyDB ?_
    intro x hx
    simp [emptyDB] at hx
  obtain ⟨p, hp⟩ := hinv u hu
  refine ⟨p, hp, ?_⟩
  rw [hp]
  exact hashPw_ne p

/-- C9 witness: the row created by one concrete signup stores the hash of
the plaintext and not the plaintext. -/
theorem passwords_never_plaintext_witness :
    ∃ p, (⟨1, "a", "e", hashPw "p", defaultImage, defaultHeader,
      none, none⟩ : User).password = hashPw p ∧
    (⟨1, "a", "e", hashPw "p", defaultImage, defaultHeader,
      none, none⟩ : User).password ≠ p :=
  passwords_never_plaintext [Op.opSignup "a" "e" "p" ""]
    ⟨1, "a", "e", hashPw "p", defaultImage, defaultHeader, none, none⟩
    (by decide)

/-- C10: a session holding an id with no matching user row resolves to an
absent acting identity without an error, exactly as an anonymous request:
every login_required operation is denied and the homepage takes the
anonymous branch. -/
theorem stale_session_anonymous (s : DBState) (uid : Nat)
    (h : findUser s uid = none) :
    add_user_to_g s (some uid) = none ∧
    add_user_to_g s (some uid) = add_user_to_g s none ∧
    (∀ (α : Type) (d : α) (body : User → α),
      login_required (add_user_to_g s (some uid)) d body = d) ∧
    homepage s (add_user_to_g s (some uid)) = [] := by
  have h0 : add_user_to_g s (some uid) = none := by
    simp [add_user_to_g, h]
  refine ⟨h0, by rw [h0]; rfl, ?_, by rw [h0]; rfl⟩
  intro α d body
  rw [h0]
  rfl

/-- C10 witness: session id 99 matches no user of the sample state; the
request behaves as anonymous. -/
theorem stale_session_anonymous_witness :
    add_user_to_g exS1 (some 99) = none ∧
    add_user_to_g exS1 (some 99) = add_user_to_g exS1 none ∧
    login_required (add_user_to_g exS1 (some 99)) (0 : Nat) (fun _ => 1) = 0 ∧
    homepage exS1 (add_user_to_g exS1 (some 99)) = [] := by
  have h := stale_session_anonymous exS1 99 (by rfl)
  exact ⟨h.1, h.2.1, h.2.2.1 Nat 0 (fun _ => 1), h.2.2.2⟩
